import Mathlib

/-!
Verification of the session workflow engine of `sudoku_dashboard.py`.

The dashboard is a Streamlit app: all mutable state lives in
`st.session_state`, a per-session key/value store.  We embed that store as
the structure `SessionState` below; each key used by the source is one
field (`none` models "key absent or None").  The manual-entry grid stores
one key per `(grid_size, i, j)` triple, embedded as a total function.

The external solver library (`sudoku_mip_solver`, out of scope per the
spec) and Streamlit's widgets are collaborators: their results are passed
to the embedded functions as explicit arguments (the `Collab` record and
per-call result arguments), so every control-flow decision the dashboard
code makes is modelled faithfully while the collaborator's own computation
stays abstract.

Each user-triggered handler of the source (a button branch of a tab
function) is embedded as a Lean function named after the source function,
returning the updated `SessionState` together with a list of `Event`s
recording the observable actions it took (clearing derived solve state,
committing a puzzle replacement, reporting success/error/warning).
-/

/-- A puzzle/solution matrix: rows of cells, a cell being `none` (empty /
Python `None`) or `some v`.  Python also uses the value `0` for empty in
some boards; that is `some 0` here, and the rendering and manual-grid code
treat it as empty exactly where the source does. -/
abbrev Matrix' := List (List (Option Nat))

/-- The external `SudokuMIPSolver` handle.  `board`, `sub_grid_width` and
`sub_grid_height` are the attributes the dashboard reads.  `cuts` models
the handle's internal search state: per the collaborator contract (spec
section 6), `find_all_solutions` adds cut constraints to the model and
`reset_model` removes them. -/
structure Solver where
  board : Matrix'
  sub_grid_width : Nat
  sub_grid_height : Nat
  cuts : Bool
  deriving DecidableEq, Repr

/-- The session store `st.session_state` of the dashboard: one field per key the source
uses.  `none` = key absent (or stored `None`).  Times and difficulties are
abstract numeric tokens (their values never influence control flow). -/
structure SessionState where
  current_solver : Option Solver
  current_solution : Option Matrix'
  multiple_solutions : Option (List Matrix')
  solve_time : Option Nat
  multi_solve_time : Option Nat
  generated_difficulty : Option Nat
  generation_time : Option Nat
  string_puzzle_input : Option String
  last_uploaded_hash : Option Int
  manual_cells : Nat → Nat → Nat → Option Nat

/-- Observable actions of a handler run. -/
inductive Event where
  | clearSolutionState
  | commitPuzzle
  | reportSuccess
  | reportError
  | reportWarning
  deriving DecidableEq, Repr

/-- The external collaborators: `parse` is `SudokuMIPSolver.from_string`,
`mkSolver` the `SudokuMIPSolver(board, w, h)` constructor, `hashFn`
Python's `hash` on the decoded file content, `strip` Python's
`str.strip()`, `toStr` is `solver.to_string()`, `getSolution` is
`solver.get_solution()`. -/
structure Collab where
  parse : String → Nat → Nat → Except String Solver
  mkSolver : Matrix' → Nat → Nat → Except String Solver
  hashFn : String → Int
  strip : String → String
  toStr : Solver → String
  getSolution : Solver → Matrix'

/-- Source `clear_solution_state`: deletes the four derived solve-state keys
`current_solution`, `multiple_solutions`, `solve_time`,
`multi_solve_time`.  Note it does NOT touch `generated_difficulty`,
`generation_time` or `last_uploaded_hash`. -/
def clear_solution_state (s : SessionState) : SessionState :=
  { s with current_solution := none, multiple_solutions := none,
           solve_time := none, multi_solve_time := none }

/-- The "Generate Puzzle" button of `generate_puzzle_tab`.  The source
clears previous solutions FIRST, then calls the external generator inside
the same `try`; on generator failure only an error is reported (the
already-performed clearing is not undone).  On success it stores the new
solver, the actual difficulty, the generation time, and overwrites the
string-input draft with the canonical string of the new puzzle. -/
def generate_puzzle_tab (C : Collab) (genResult : Except String (Solver × Nat))
    (generation_time : Nat) (s : SessionState) : SessionState × List Event :=
  let s1 := clear_solution_state s
  match genResult with
  | .ok (solver, actual_difficulty) =>
      ({ s1 with current_solver := some solver,
                 generated_difficulty := some actual_difficulty,
                 generation_time := some generation_time,
                 string_puzzle_input := some (C.toStr solver) },
       [.clearSolutionState, .commitPuzzle, .reportSuccess])
  | .error _ => (s1, [.clearSolutionState, .reportError])

/-- The "Load Current Puzzle" button of `string_input_tab`: copies the
active puzzle's canonical string into the draft, or warns if there is no
active puzzle. -/
def string_input_tab_load (C : Collab) (s : SessionState) :
    SessionState × List Event :=
  match s.current_solver with
  | some solver =>
      ({ s with string_puzzle_input := some (C.toStr solver) }, [.reportSuccess])
  | none => (s, [.reportWarning])

/-- The "Clear Field" button of `string_input_tab`: resets the draft text
to the empty string without touching the committed puzzle. -/
def string_input_tab_clear (s : SessionState) : SessionState × List Event :=
  ({ s with string_puzzle_input := some "" }, [.reportSuccess])

/-- The "Update Puzzle" button of `string_input_tab`.  The button is
disabled when the stripped draft is empty (modelled as a no-op).  Otherwise
the source clears previous solutions FIRST, then parses the stripped draft
inside the same `try`: on success the new solver is committed, on parse
failure only an error is reported (the clearing is not undone). -/
def string_input_tab_update (C : Collab) (w h : Nat) (s : SessionState) :
    SessionState × List Event :=
  let puzzle_string := s.string_puzzle_input.getD ""
  if C.strip puzzle_string = "" then (s, [])
  else
    let s1 := clear_solution_state s
    match C.parse (C.strip puzzle_string) w h with
    | .ok solver =>
        ({ s1 with current_solver := some solver },
         [.clearSolutionState, .commitPuzzle, .reportSuccess])
    | .error _ => (s1, [.clearSolutionState, .reportError])

/-- Source `file_input_tab`: with no uploaded file, nothing happens.  With an
uploaded file, the decoded content is hashed and processed only when the
hash differs from `last_uploaded_hash` (`st.session_state.get` returns
`None` when the key is absent, which never equals an int hash).  Processing
clears previous solutions FIRST, then parses the stripped content: on
success the solver is committed and the hash recorded; on parse failure
only an error is reported — the hash is NOT recorded and the clearing is
not undone. -/
def file_input_tab (C : Collab) (w h : Nat) (uploaded : Option String)
    (s : SessionState) : SessionState × List Event :=
  match uploaded with
  | none => (s, [])
  | some content =>
      let content_hash := C.hashFn content
      if s.last_uploaded_hash ≠ some content_hash then
        let s1 := clear_solution_state s
        match C.parse (C.strip content) w h with
        | .ok solver =>
            ({ s1 with current_solver := some solver,
                       last_uploaded_hash := some content_hash },
             [.clearSolutionState, .commitPuzzle, .reportSuccess])
        | .error _ => (s1, [.clearSolutionState, .reportError])
      else (s, [])

/-- Write one manual-grid session key `manual_cell_{g}_{i}_{j}`. -/
def setManualCell (cells : Nat → Nat → Nat → Option Nat) (g i j : Nat)
    (v : Option Nat) : Nat → Nat → Nat → Option Nat :=
  fun g' i' j' => if g' = g ∧ i' = i ∧ j' = j then v else cells g' i' j'

/-- The stored-cell value for a loaded board entry: `None` and `0` both
become empty (`value if value is not None and value != 0 else None`). -/
def loadedCellValue (value : Option Nat) : Option Nat :=
  match value with
  | none => none
  | some v => if v = 0 then none else some v

/-- The key store after `load_puzzle_into_manual_input`'s double loop over
`i < min(len(board), grid_size)`, `j < min(len(board[i]), grid_size)`. -/
def loadCellsLoop (puzzle_board : Matrix') (grid_size : Nat)
    (cells : Nat → Nat → Nat → Option Nat) : Nat → Nat → Nat → Option Nat :=
  (List.range (min puzzle_board.length grid_size)).foldl
    (fun cs i =>
      (List.range (min (puzzle_board.getD i []).length grid_size)).foldl
        (fun cs' j =>
          setManualCell cs' grid_size i j
            (loadedCellValue ((puzzle_board.getD i []).getD j none)))
        cs)
    cells

/-- Source `load_puzzle_into_manual_input`: overwrite the `(grid_size, i, j)` keys
from the supplied board, mapping `None` and `0` to empty. -/
def load_puzzle_into_manual_input (puzzle_board : Matrix') (grid_size : Nat)
    (s : SessionState) : SessionState :=
  { s with manual_cells := loadCellsLoop puzzle_board grid_size s.manual_cells }

/-- The key store after `clear_manual_input_grid`'s double loop. -/
def clearCellsLoop (grid_size : Nat) (cells : Nat → Nat → Nat → Option Nat) :
    Nat → Nat → Nat → Option Nat :=
  (List.range grid_size).foldl
    (fun cs i =>
      (List.range grid_size).foldl
        (fun cs' j => setManualCell cs' grid_size i j none) cs)
    cells

/-- Source `clear_manual_input_grid`: reset every `(grid_size, i, j)` key of the
current grid size to empty. -/
def clear_manual_input_grid (grid_size : Nat) (s : SessionState) : SessionState :=
  { s with manual_cells := clearCellsLoop grid_size s.manual_cells }

/-- The value returned by the `st.number_input` cell widget given the
stored session value: the widget is created with `min_value=0` and
`max_value=grid_size`, so the (nonnegative) stored value is kept within
`[0, max_value]`; an empty widget (stored `None`) returns `None`. -/
def number_input_value (stored : Option Nat) (max_value : Nat) : Option Nat :=
  stored.map (fun v => min v max_value)

/-- Source `create_manual_input_grid`: builds the `grid_size × grid_size` board
from the manual-grid widgets.  The source first initialises absent keys to
`None` (a no-op in this embedding, where absent and `None` coincide), then
reads each cell widget and converts `0` to `None` "for SudokuMIPSolver
compatibility" (`None if value == 0 else value`; note a `None` widget value
is not `== 0` in Python and is appended unchanged). -/
def create_manual_input_grid (grid_size : Nat) (s : SessionState) : Matrix' :=
  (List.range grid_size).map fun i =>
    (List.range grid_size).map fun j =>
      let value := number_input_value (s.manual_cells grid_size i j) grid_size
      match value with
      | some 0 => none
      | v => v

/-- The "Load Current Puzzle" button of `manual_input_tab`: with no active
puzzle, warn.  With an active puzzle whose board size differs from the
manual grid's current size, report an error and change nothing; otherwise
load the board into the manual-grid keys. -/
def manual_input_tab_load (grid_size : Nat) (s : SessionState) :
    SessionState × List Event :=
  match s.current_solver with
  | some solver =>
      let solver_grid_size := solver.board.length
      if solver_grid_size ≠ grid_size then (s, [.reportError])
      else (load_puzzle_into_manual_input solver.board grid_size s, [.reportSuccess])
  | none => (s, [.reportWarning])

/-- The "Clear Grid" button of `manual_input_tab`. -/
def manual_input_tab_clear (grid_size : Nat) (s : SessionState) :
    SessionState × List Event :=
  (clear_manual_input_grid grid_size s, [.reportSuccess])

/-- The "Update Puzzle" button of `manual_input_tab`: the board is the one
built by `create_manual_input_grid` for `grid_size = w * h`.  The source
clears previous solutions FIRST, then invokes the `SudokuMIPSolver`
constructor inside the same `try`: on success the new solver is committed,
on constructor failure only an error is reported (the clearing is not
undone). -/
def manual_input_tab_update (C : Collab) (w h : Nat) (s : SessionState) :
    SessionState × List Event :=
  let board := create_manual_input_grid (w * h) s
  let s1 := clear_solution_state s
  match C.mkSolver board w h with
  | .ok solver =>
      ({ s1 with current_solver := some solver },
       [.clearSolutionState, .commitPuzzle, .reportSuccess])
  | .error _ => (s1, [.clearSolutionState, .reportError])

/-- Collaborator contract (spec section 6): `find_all_solutions` adds cut
constraints to the solver handle's model while enumerating. -/
def find_all_solutions_effect (solver : Solver) : Solver :=
  { solver with cuts := true }

/-- Collaborator contract (spec section 6): `reset_model` removes the
constraints added during enumeration from the solver handle. -/
def reset_model (solver : Solver) : Solver :=
  { solver with cuts := false }

/-- Source `solve_puzzle_with_options`: with no active puzzle, error out.  In
single mode (`max_solutions == 1`) delete the multi-solution keys first,
then run the external solve: on success record the solution and time (and
re-store the solver); `False` (infeasible) and exceptions report without
recording.  In multiple mode delete the single-solution keys first, then
enumerate; on completion call `reset_model` unconditionally — also for zero
or one found solution — then record the solutions, the time, and the reset
solver; an exception during enumeration reports without recording.
`singleRes` is the outcome of `solver.solve()` (`.ok b` for a normal return
`b`, `.error` for an exception) and `multiRes` the outcome of
`solver.find_all_solutions(max_solutions)`. -/
def solve_puzzle_with_options (C : Collab) (singleRes : Except String Bool)
    (multiRes : Except String (List Matrix')) (max_solutions solve_time : Nat)
    (s : SessionState) : SessionState × List Event :=
  match s.current_solver with
  | none => (s, [.reportError])
  | some solver =>
      if max_solutions = 1 then
        let s1 := { s with multiple_solutions := none, multi_solve_time := none }
        match singleRes with
        | .ok true =>
            ({ s1 with current_solver := some solver,
                       current_solution := some (C.getSolution solver),
                       solve_time := some solve_time },
             [.reportSuccess])
        | .ok false => (s1, [.reportError])
        | .error _ => (s1, [.reportError])
      else
        let s1 := { s with current_solution := none, solve_time := none }
        match multiRes with
        | .ok solutions =>
            let solver2 := reset_model (find_all_solutions_effect solver)
            ({ s1 with current_solver := some solver2,
                       multiple_solutions := some solutions,
                       multi_solve_time := some solve_time },
             if solutions.length = 0 then [.reportError]
             else if solutions.length = max_solutions then
               [.reportSuccess, .reportWarning]
             else [.reportSuccess])
        | .error _ => (s1, [.reportError])

/-- The per-cell class computation of `create_sudoku_html`: thick borders
at sub-grid boundaries, `empty` styling for cells that are `0` or `None`,
`clue` styling otherwise. -/
def cell_classes (sub_grid_width sub_grid_height grid_size i j : Nat)
    (cell : Option Nat) : List String :=
  let classes : List String := []
  let classes :=
    if (j + 1) % sub_grid_width = 0 ∧ j < grid_size - 1
    then classes ++ ["thick-right"] else classes
  let classes :=
    if (i + 1) % sub_grid_height = 0 ∧ i < grid_size - 1
    then classes ++ ["thick-bottom"] else classes
  if cell = some 0 ∨ cell = none then classes ++ ["empty"]
  else classes ++ ["clue"]

/-- Source `create_sudoku_html`, as the annotated grid it renders: for each cell
of the board (enumerated 0-indexed), the list of CSS classes attached to
its `<td>`.  `grid_size = len(board)`; the sub-grid dimensions are read
from the active solver. -/
def create_sudoku_html (solver : Solver) (board : Matrix') :
    List (List (List String)) :=
  let grid_size := board.length
  board.enum.map fun ir =>
    ir.2.enum.map fun jc =>
      cell_classes solver.sub_grid_width solver.sub_grid_height grid_size
        ir.1 jc.1 jc.2

/-- A user action other than a file upload: the buttons of the Generate,
String and Manual tabs, and a solve request.  External-call outcomes are
carried as data so a sequence of operations can be quantified over. -/
inductive Op where
  | generateOp (genResult : Except String (Solver × Nat)) (t : Nat)
  | stringLoadOp
  | stringClearOp
  | stringUpdateOp (w h : Nat)
  | manualLoadOp (grid_size : Nat)
  | manualClearOp (grid_size : Nat)
  | manualUpdateOp (w h : Nat)
  | solveOp (singleRes : Except String Bool)
      (multiRes : Except String (List Matrix')) (maxS t : Nat)

/-- Run one non-file user action on the session. -/
def applyOp (C : Collab) (op : Op) (s : SessionState) : SessionState :=
  match op with
  | .generateOp r t => (generate_puzzle_tab C r t s).1
  | .stringLoadOp => (string_input_tab_load C s).1
  | .stringClearOp => (string_input_tab_clear s).1
  | .stringUpdateOp w h => (string_input_tab_update C w h s).1
  | .manualLoadOp g => (manual_input_tab_load g s).1
  | .manualClearOp g => (manual_input_tab_clear g s).1
  | .manualUpdateOp w h => (manual_input_tab_update C w h s).1
  | .solveOp sr mr mx t => (solve_puzzle_with_options C sr mr mx t s).1

/-- Run a sequence of non-file user actions on the session. -/
def applyOps (C : Collab) (ops : List Op) (s : SessionState) : SessionState :=
  ops.foldl (fun st op => applyOp C op st) s

/-- The session at app start: no key set. -/
def initState : SessionState :=
  { current_solver := none, current_solution := none,
    multiple_solutions := none, solve_time := none, multi_solve_time := none,
    generated_difficulty := none, generation_time := none,
    string_puzzle_input := none, last_uploaded_hash := none,
    manual_cells := fun _ _ _ => none }

/-- A fixed 4×4 solver handle (sub-grids 2×2), used as a concrete value. -/
def slv4 : Solver :=
  { board := List.replicate 4 (List.replicate 4 none),
    sub_grid_width := 2, sub_grid_height := 2, cuts := false }

/-- A fixed 9×9 solver handle (sub-grids 3×3), used as a concrete value. -/
def slv9 : Solver :=
  { board := List.replicate 9 (List.replicate 9 none),
    sub_grid_width := 3, sub_grid_height := 3, cuts := false }

/-- A collaborator whose parse and constructor always fail. -/
def failCollab : Collab :=
  { parse := fun _ _ _ => .error "parse failed",
    mkSolver := fun _ _ _ => .error "constructor failed",
    hashFn := fun _ => 0,
    strip := fun t => t,
    toStr := fun _ => "",
    getSolution := fun slv => slv.board }

/-- A collaborator whose parse and constructor always yield `slv4`. -/
def okCollab : Collab :=
  { parse := fun _ _ _ => .ok slv4,
    mkSolver := fun _ _ _ => .ok slv4,
    hashFn := fun _ => 0,
    strip := fun t => t,
    toStr := fun _ => "canonical",
    getSolution := fun slv => slv.board }

/-- The session after a successful file processing: derived solve state
cleared, the parsed solver committed, the content hash recorded. -/
def fileSuccessState (s : SessionState) (slv : Solver) (hsh : Int) :
    SessionState :=
  { clear_solution_state s with
      current_solver := some slv, last_uploaded_hash := some hsh }

/-- A concrete mid-session state: a 9×9 puzzle is active, a single solve
result is recorded, generation metadata from an earlier Generate commit is
present, the string draft holds text, and one 4×4 manual cell is set. -/
def sDemo : SessionState :=
  { current_solver := some slv9,
    current_solution := some [[some 1]],
    multiple_solutions := none,
    solve_time := some 5, multi_solve_time := none,
    generated_difficulty := some 7, generation_time := some 3,
    string_puzzle_input := some "draft",
    last_uploaded_hash := none,
    manual_cells := fun g i j => if g = 4 ∧ i = 0 ∧ j = 0 then some 2 else none }

/-- A concrete state whose 2×2 manual grid holds one out-of-range stored
value. -/
def sManual : SessionState :=
  { initState with
    manual_cells := fun g i j => if g = 2 ∧ i = 0 ∧ j = 0 then some 99 else none }

/-- Derived solve state is absent: none of the four keys cleared by
`clear_solution_state` is present. -/
def solveStateCleared (s : SessionState) : Prop :=
  s.current_solution = none ∧ s.multiple_solutions = none ∧
  s.solve_time = none ∧ s.multi_solve_time = none

/-- Generation metadata carried over unchanged from `s` to `s1`. -/
def genMetadataUnchanged (s s1 : SessionState) : Prop :=
  s1.generated_difficulty = s.generated_difficulty ∧
  s1.generation_time = s.generation_time

/-- C8: a successful Generate commit also overwrites the String adapter's
draft text with the canonical string of the newly generated puzzle,
whatever draft was there before. -/
theorem C8_generate_overwrites_draft (C : Collab) (slv : Solver) (d t : Nat)
    (s : SessionState) :
    (generate_puzzle_tab C (.ok (slv, d)) t s).1.string_puzzle_input
      = some (C.toStr slv) := by
  simp [generate_puzzle_tab]

/-- C7: when the active puzzle's grid size differs from the manual grid's
current size, the "load active puzzle into grid" action reports a
validation error and leaves the session — in particular every manual-grid
key — unchanged. -/
theorem C7_manual_load_mismatch (grid_size : Nat) (s : SessionState)
    (slv : Solver) (hact : s.current_solver = some slv)
    (hmm : slv.board.length ≠ grid_size) :
    manual_input_tab_load grid_size s = (s, [Event.reportError]) := by
  simp [manual_input_tab_load, hact, hmm]

/-- Witness for C7: loading the active 9×9 puzzle of `sDemo` into a 4×4
manual grid errors and changes nothing. -/
theorem C7_witness :
    manual_input_tab_load 4 sDemo = (sDemo, [Event.reportError]) :=
  C7_manual_load_mismatch 4 sDemo slv9 rfl (by decide)

/-- C4: a Multiple-mode solve whose enumeration completes stores back a
solver handle on which `reset_model` has been applied after
`find_all_solutions` — for every list of found solutions, including the
empty and the singleton list — and that handle carries no enumeration
cuts. -/
theorem C4_reset_after_enumeration (C : Collab)
    (singleRes : Except String Bool) (sols : List Matrix') (maxS t : Nat)
    (s : SessionState) (slv : Solver) (hactive : s.current_solver = some slv)
    (hmulti : maxS ≠ 1) :
    (solve_puzzle_with_options C singleRes (.ok sols) maxS t s).1.current_solver
      = some (reset_model (find_all_solutions_effect slv)) ∧
    (reset_model (find_all_solutions_effect slv)).cuts = false := by
  refine ⟨?_, rfl⟩
  simp [solve_puzzle_with_options, hactive, hmulti]

/-- Witness for C4: a Multiple-mode solve on `sDemo` that finds zero
solutions still stores back a cut-free, reset solver handle. -/
theorem C4_witness :
    (solve_puzzle_with_options okCollab (.ok true) (.ok []) 10 1 sDemo).1.current_solver
      = some (reset_model (find_all_solutions_effect slv9)) ∧
    (reset_model (find_all_solutions_effect slv9)).cuts = false :=
  C4_reset_after_enumeration okCollab (.ok true) [] 10 1 sDemo slv9 rfl (by decide)

/-- C3: whenever a solve call records a result (Single mode with a
successful solve, or Multiple mode with a completed enumeration), the
resulting session holds exactly one of the single-solution result and the
multiple-solutions result — never both, and never a leftover of the other
mode. -/
theorem C3_mutual_exclusion (C : Collab) (singleRes : Except String Bool)
    (multiRes : Except String (List Matrix')) (maxS t : Nat)
    (s : SessionState) (slv : Solver) (hactive : s.current_solver = some slv)
    (hrec : (maxS = 1 ∧ singleRes = .ok true) ∨
            (maxS ≠ 1 ∧ ∃ sols, multiRes = .ok sols)) :
    ((solve_puzzle_with_options C singleRes multiRes maxS t s).1.current_solution.isSome = true ∧
     (solve_puzzle_with_options C singleRes multiRes maxS t s).1.multiple_solutions = none) ∨
    ((solve_puzzle_with_options C singleRes multiRes maxS t s).1.current_solution = none ∧
     (solve_puzzle_with_options C singleRes multiRes maxS t s).1.multiple_solutions.isSome = true) := by
  rcases hrec with ⟨h1, hs⟩ | ⟨h1, sols, hm⟩
  · subst h1 hs
    left
    simp [solve_puzzle_with_options, hactive]
  · subst hm
    right
    simp [solve_puzzle_with_options, hactive, h1]

/-- Witness for C3: a successful Single-mode solve on `sDemo` leaves
exactly the single-solution result present. -/
theorem C3_witness :
    ((solve_puzzle_with_options okCollab (.ok true) (.error "e") 1 2 sDemo).1.current_solution.isSome = true ∧
     (solve_puzzle_with_options okCollab (.ok true) (.error "e") 1 2 sDemo).1.multiple_solutions = none) ∨
    ((solve_puzzle_with_options okCollab (.ok true) (.error "e") 1 2 sDemo).1.current_solution = none ∧
     (solve_puzzle_with_options okCollab (.ok true) (.error "e") 1 2 sDemo).1.multiple_solutions.isSome = true) :=
  C3_mutual_exclusion okCollab (.ok true) (.error "e") 1 2 sDemo slv9 rfl
    (Or.inl ⟨rfl, rfl⟩)

/-- C1, counterexample: a failing String-adapter commit attempt performs no
commit, yet does NOT leave the session in its prior state — `sDemo`'s
recorded solve result is gone afterwards, because the source clears derived
solve state before attempting the parse. -/
theorem C1_cex :
    (string_input_tab_update failCollab 3 3 sDemo).2.count .commitPuzzle = 0 ∧
    (string_input_tab_update failCollab 3 3 sDemo).1.current_solution
      ≠ sDemo.current_solution := by
  constructor
  · decide
  · decide

/-- C1 (amended): on every failing commit attempt — generate failure,
string parse failure, file parse failure on new content, manual
constructor failure — the resulting session is exactly
`clear_solution_state` of the prior one: the active puzzle, solver handle,
manual cells, draft and upload marker are unchanged, but the derived solve
results have been cleared (the clearing precedes the fallible call). -/
theorem C1_amended (C : Collab) (w h t : Nat) (content : String)
    (genResult : Except String (Solver × Nat)) (eg es ef em : String)
    (s : SessionState)
    (hgen : genResult = .error eg)
    (hstr : C.parse (C.strip (s.string_puzzle_input.getD "")) w h = .error es)
    (hne : C.strip (s.string_puzzle_input.getD "") ≠ "")
    (hfile : C.parse (C.strip content) w h = .error ef)
    (hnew : s.last_uploaded_hash ≠ some (C.hashFn content))
    (hman : C.mkSolver (create_manual_input_grid (w * h) s) w h = .error em) :
    (generate_puzzle_tab C genResult t s).1 = clear_solution_state s ∧
    (string_input_tab_update C w h s).1 = clear_solution_state s ∧
    (file_input_tab C w h (some content) s).1 = clear_solution_state s ∧
    (manual_input_tab_update C w h s).1 = clear_solution_state s ∧
    (clear_solution_state s).current_solver = s.current_solver ∧
    (clear_solution_state s).manual_cells = s.manual_cells ∧
    (clear_solution_state s).last_uploaded_hash = s.last_uploaded_hash := by
  subst hgen
  refine ⟨?_, ?_, ?_, ?_, rfl, rfl, rfl⟩
  · simp [generate_puzzle_tab]
  · simp [string_input_tab_update, hne, hstr]
  · simp [file_input_tab, hnew, hfile]
  · simp [manual_input_tab_update, hman]

/-- Witness for C1 (amended): with the always-failing collaborator and the
mid-session state `sDemo`, every adapter's failure path yields exactly
`clear_solution_state sDemo`. -/
theorem C1_amended_witness :
    (generate_puzzle_tab failCollab (.error "gen") 0 sDemo).1
      = clear_solution_state sDemo ∧
    (string_input_tab_update failCollab 3 3 sDemo).1
      = clear_solution_state sDemo ∧
    (file_input_tab failCollab 3 3 (some "Q") sDemo).1
      = clear_solution_state sDemo ∧
    (manual_input_tab_update failCollab 3 3 sDemo).1
      = clear_solution_state sDemo ∧
    (clear_solution_state sDemo).current_solver = sDemo.current_solver ∧
    (clear_solution_state sDemo).manual_cells = sDemo.manual_cells ∧
    (clear_solution_state sDemo).last_uploaded_hash = sDemo.last_uploaded_hash :=
  C1_amended failCollab 3 3 0 "Q" (.error "gen") "gen" "parse failed"
    "parse failed" "constructor failed" sDemo rfl rfl (by decide) rfl
    (by decide) rfl

/-- C2, counterexample: a successful String-adapter commit on `sDemo`
(which holds generation metadata from an earlier Generate commit) does
commit a new puzzle, yet the generation metadata is still present
afterwards — the code never clears `generated_difficulty` or
`generation_time` on a non-generate replacement. -/
theorem C2_cex :
    (string_input_tab_update okCollab 2 2 sDemo).2.count .commitPuzzle = 1 ∧
    (string_input_tab_update okCollab 2 2 sDemo).1.generated_difficulty = some 7 ∧
    (string_input_tab_update okCollab 2 2 sDemo).1.generation_time = some 3 := by
  refine ⟨by decide, by decide, by decide⟩

/-- C2 (amended): after every successful puzzle replacement the recorded
solve result is empty; a Generate commit freshly sets the generation
metadata, while a successful String, File or Manual commit leaves the
previously present generation metadata unchanged (it is not cleared). -/
theorem C2_amended (C : Collab) (w h d tg : Nat) (content : String)
    (slv slvf slvm gslv : Solver) (s : SessionState)
    (hstr : C.parse (C.strip (s.string_puzzle_input.getD "")) w h = .ok slv)
    (hne : C.strip (s.string_puzzle_input.getD "") ≠ "")
    (hfile : C.parse (C.strip content) w h = .ok slvf)
    (hnew : s.last_uploaded_hash ≠ some (C.hashFn content))
    (hman : C.mkSolver (create_manual_input_grid (w * h) s) w h = .ok slvm) :
    solveStateCleared (string_input_tab_update C w h s).1 ∧
    genMetadataUnchanged s (string_input_tab_update C w h s).1 ∧
    solveStateCleared (file_input_tab C w h (some content) s).1 ∧
    genMetadataUnchanged s (file_input_tab C w h (some content) s).1 ∧
    solveStateCleared (manual_input_tab_update C w h s).1 ∧
    genMetadataUnchanged s (manual_input_tab_update C w h s).1 ∧
    solveStateCleared (generate_puzzle_tab C (.ok (gslv, d)) tg s).1 ∧
    (generate_puzzle_tab C (.ok (gslv, d)) tg s).1.generated_difficulty = some d ∧
    (generate_puzzle_tab C (.ok (gslv, d)) tg s).1.generation_time = some tg := by
  refine ⟨?_, ?_, ?_, ?_, ?_, ?_, ?_, ?_, ?_⟩ <;>
    simp [solveStateCleared, genMetadataUnchanged, string_input_tab_update,
      file_input_tab, manual_input_tab_update, generate_puzzle_tab,
      clear_solution_state, hstr, hne, hfile, hnew, hman]

/-- Witness for C2 (amended): with the always-succeeding collaborator and
the mid-session state `sDemo`. -/
theorem C2_amended_witness :
    solveStateCleared (string_input_tab_update okCollab 2 2 sDemo).1 ∧
    genMetadataUnchanged sDemo (string_input_tab_update okCollab 2 2 sDemo).1 ∧
    solveStateCleared (file_input_tab okCollab 2 2 (some "Q") sDemo).1 ∧
    genMetadataUnchanged sDemo (file_input_tab okCollab 2 2 (some "Q") sDemo).1 ∧
    solveStateCleared (manual_input_tab_update okCollab 2 2 sDemo).1 ∧
    genMetadataUnchanged sDemo (manual_input_tab_update okCollab 2 2 sDemo).1 ∧
    solveStateCleared (generate_puzzle_tab okCollab (.ok (slv4, 6)) 9 sDemo).1 ∧
    (generate_puzzle_tab okCollab (.ok (slv4, 6)) 9 sDemo).1.generated_difficulty = some 6 ∧
    (generate_puzzle_tab okCollab (.ok (slv4, 6)) 9 sDemo).1.generation_time = some 9 :=
  C2_amended okCollab 2 2 6 9 "Q" slv4 slv4 slv4 slv4 sDemo rfl (by decide)
    rfl (by decide) rfl

/-- C6, counterexample: uploading malformed content twice performs zero
commits (not exactly one) and clears derived solve state twice (not once):
a parse failure does not record the content marker, so the identical second
upload re-processes and resets derived state again. -/
theorem C6_cex :
    ((file_input_tab failCollab 2 2 (some "xyz") initState).2 ++
      (file_input_tab failCollab 2 2 (some "xyz")
        (file_input_tab failCollab 2 2 (some "xyz") initState).1).2).count
      Event.commitPuzzle = 0 ∧
    ((file_input_tab failCollab 2 2 (some "xyz") initState).2 ++
      (file_input_tab failCollab 2 2 (some "xyz")
        (file_input_tab failCollab 2 2 (some "xyz") initState).1).2).count
      Event.clearSolutionState = 2 := by
  refine ⟨by decide, by decide⟩

/-- C6 (amended): when the first processing of the content succeeds, a
second upload of byte-identical content is a strict no-op — same session
state, no events — so the pair of uploads performs exactly one commit and
exactly one clearing of derived solve state.  (On a parse failure the
content marker is not recorded and an identical re-upload re-processes.) -/
theorem C6_amended (C : Collab) (w h : Nat) (content : String) (slv : Solver)
    (s : SessionState)
    (hparse : C.parse (C.strip content) w h = .ok slv)
    (hnew : s.last_uploaded_hash ≠ some (C.hashFn content)) :
    file_input_tab C w h (some content)
        (file_input_tab C w h (some content) s).1
      = ((file_input_tab C w h (some content) s).1, []) ∧
    ((file_input_tab C w h (some content) s).2 ++
      (file_input_tab C w h (some content)
        (file_input_tab C w h (some content) s).1).2).count
      Event.commitPuzzle = 1 ∧
    ((file_input_tab C w h (some content) s).2 ++
      (file_input_tab C w h (some content)
        (file_input_tab C w h (some content) s).1).2).count
      Event.clearSolutionState = 1 := by
  have h1 : file_input_tab C w h (some content) s
      = (fileSuccessState s slv (C.hashFn content),
         [.clearSolutionState, .commitPuzzle, .reportSuccess]) := by
    simp [file_input_tab, fileSuccessState, hnew, hparse]
  have h2 : file_input_tab C w h (some content)
      (file_input_tab C w h (some content) s).1
      = ((file_input_tab C w h (some content) s).1, []) := by
    rw [h1]
    simp [file_input_tab, fileSuccessState]
  refine ⟨h2, ?_, ?_⟩ <;> rw [h2, h1] <;> rfl

/-- Witness for C6 (amended): first upload of `"Q"` with the
always-succeeding collaborator commits once; the identical second upload is
a strict no-op. -/
theorem C6_amended_witness :
    file_input_tab okCollab 2 2 (some "Q")
        (file_input_tab okCollab 2 2 (some "Q") initState).1
      = ((file_input_tab okCollab 2 2 (some "Q") initState).1, []) ∧
    ((file_input_tab okCollab 2 2 (some "Q") initState).2 ++
      (file_input_tab okCollab 2 2 (some "Q")
        (file_input_tab okCollab 2 2 (some "Q") initState).1).2).count
      Event.commitPuzzle = 1 ∧
    ((file_input_tab okCollab 2 2 (some "Q") initState).2 ++
      (file_input_tab okCollab 2 2 (some "Q")
        (file_input_tab okCollab 2 2 (some "Q") initState).1).2).count
      Event.clearSolutionState = 1 :=
  C6_amended okCollab 2 2 "Q" slv4 initState rfl (by decide)

/-- Uploading content whose hash equals the recorded
`last_uploaded_hash` marker is a strict no-op. -/
theorem file_input_tab_noop (C : Collab) (w h : Nat) (content : String)
    (s : SessionState)
    (hmark : s.last_uploaded_hash = some (C.hashFn content)) :
    file_input_tab C w h (some content) s = (s, []) := by
  simp [file_input_tab, hmark]

/-- No non-file user action — no other adapter's commit, no manual-grid
action, no solve, hence no solve-state invalidation — ever changes the
File adapter's `last_uploaded_hash` marker. -/
theorem applyOp_last_uploaded_hash (C : Collab) (op : Op) (s : SessionState) :
    (applyOp C op s).last_uploaded_hash = s.last_uploaded_hash := by
  cases op <;>
    simp only [applyOp, generate_puzzle_tab, string_input_tab_load,
      string_input_tab_clear, string_input_tab_update, manual_input_tab_load,
      manual_input_tab_clear, manual_input_tab_update, clear_manual_input_grid,
      load_puzzle_into_manual_input, clear_solution_state,
      solve_puzzle_with_options] <;>
    (repeat' split) <;> rfl

/-- Lemma `applyOp_last_uploaded_hash` lifted to action sequences. -/
theorem applyOps_last_uploaded_hash (C : Collab) (ops : List Op)
    (s : SessionState) :
    (applyOps C ops s).last_uploaded_hash = s.last_uploaded_hash := by
  induction ops generalizing s with
  | nil => rfl
  | cons op ops ih =>
      simpa [applyOps] using
        (ih (applyOp C op s)).trans (applyOp_last_uploaded_hash C op s)

/-- C9: once file content has been successfully processed (its hash is
recorded), no sequence of non-file user actions — including puzzle
replacements by other adapters and solves — clears the marker, so a later
upload of the same content performs no commit and changes nothing. -/
theorem C9_no_recommit_after_other_ops (C : Collab) (ops : List Op)
    (content : String) (w h w' h' : Nat) (s : SessionState) (slv : Solver)
    (hparse : C.parse (C.strip content) w h = .ok slv)
    (hnew : s.last_uploaded_hash ≠ some (C.hashFn content)) :
    (applyOps C ops (file_input_tab C w h (some content) s).1).last_uploaded_hash
      = some (C.hashFn content) ∧
    file_input_tab C w' h' (some content)
        (applyOps C ops (file_input_tab C w h (some content) s).1)
      = (applyOps C ops (file_input_tab C w h (some content) s).1, []) := by
  have hfirst : (file_input_tab C w h (some content) s).1
      = fileSuccessState s slv (C.hashFn content) := by
    simp [file_input_tab, fileSuccessState, hnew, hparse]
  have hh : (applyOps C ops (file_input_tab C w h (some content) s).1).last_uploaded_hash
      = some (C.hashFn content) := by
    rw [applyOps_last_uploaded_hash, hfirst]
    rfl
  exact ⟨hh, file_input_tab_noop C w' h' content _ hh⟩

/-- Witness for C9: after a successful upload, a Generate commit (which
replaces the active puzzle) and a solve, re-uploading the identical content
is a strict no-op. -/
theorem C9_witness :
    (applyOps okCollab [.generateOp (.ok (slv9, 5)) 2, .solveOp (.ok true) (.ok []) 1 3]
        (file_input_tab okCollab 2 2 (some "abc") initState).1).last_uploaded_hash
      = some (okCollab.hashFn "abc") ∧
    file_input_tab okCollab 3 3 (some "abc")
        (applyOps okCollab [.generateOp (.ok (slv9, 5)) 2, .solveOp (.ok true) (.ok []) 1 3]
          (file_input_tab okCollab 2 2 (some "abc") initState).1)
      = (applyOps okCollab [.generateOp (.ok (slv9, 5)) 2, .solveOp (.ok true) (.ok []) 1 3]
          (file_input_tab okCollab 2 2 (some "abc") initState).1, []) :=
  C9_no_recommit_after_other_ops okCollab
    [.generateOp (.ok (slv9, 5)) 2, .solveOp (.ok true) (.ok []) 1 3]
    "abc" 2 2 3 3 initState slv4 rfl (by decide)

/-- C10: every cell of the board built by the Manual adapter's grid is
either empty (`none`) or an integer in `[1, grid_size]`: the cell widgets
are bounded by `[0, grid_size]` and a `0` is mapped to empty before the
board is assembled. -/
theorem C10_manual_board_cells (grid_size : Nat) (s : SessionState)
    (row : List (Option Nat)) (cell : Option Nat)
    (hrow : row ∈ create_manual_input_grid grid_size s) (hcell : cell ∈ row) :
    cell = none ∨ ∃ v, cell = some v ∧ 1 ≤ v ∧ v ≤ grid_size := by
  unfold create_manual_input_grid at hrow
  rw [List.mem_map] at hrow
  obtain ⟨i, -, rfl⟩ := hrow
  rw [List.mem_map] at hcell
  obtain ⟨j, -, rfl⟩ := hcell
  cases hst : s.manual_cells grid_size i j with
  | none => left; simp [number_input_value, hst]
  | some x =>
      cases hm : min x grid_size with
      | zero => left; simp [number_input_value, hst, hm]
      | succ k =>
          right
          refine ⟨k + 1, ?_, Nat.succ_le_succ (Nat.zero_le k), ?_⟩
          · simp [number_input_value, hst, hm]
          · rw [← hm]; exact Nat.min_le_right x grid_size

/-- Witness for C10: in `sManual` the stored value `99` of cell (0,0) of
the 2×2 grid is bounded to `2`, which lies in `[1, 2]`. -/
theorem C10_witness :
    (some 2 : Option Nat) = none ∨
    ∃ v, (some 2 : Option Nat) = some v ∧ 1 ≤ v ∧ v ≤ 2 :=
  C10_manual_board_cells 2 sManual [some 2, none] (some 2)
    (by decide) (by decide)

/-- The `thick-right` class is attached by `cell_classes` exactly at
vertical sub-grid boundaries away from the last column. -/
theorem thick_right_mem_cell_classes (w h gs i j : Nat) (cell : Option Nat) :
    "thick-right" ∈ cell_classes w h gs i j cell ↔
      ((j + 1) % w = 0 ∧ j < gs - 1) := by
  unfold cell_classes
  split_ifs <;> simp_all

/-- The `thick-bottom` class is attached by `cell_classes` exactly at
horizontal sub-grid boundaries away from the last row. -/
theorem thick_bottom_mem_cell_classes (w h gs i j : Nat) (cell : Option Nat) :
    "thick-bottom" ∈ cell_classes w h gs i j cell ↔
      ((i + 1) % h = 0 ∧ i < gs - 1) := by
  unfold cell_classes
  split_ifs <;> simp_all

/-- C5: in the rendered grid, cell `(i, j)` (0-indexed) carries the
`thick-right` class iff `(j+1) % sub_grid_width = 0` and
`j < grid_size - 1`, and the `thick-bottom` class iff
`(i+1) % sub_grid_height = 0` and `i < grid_size - 1`, where
`grid_size = len(board)`. -/
theorem C5_thick_borders (solver : Solver) (board : Matrix') (i j : Nat)
    (crow : List (List String)) (classes : List String)
    (hrow : (create_sudoku_html solver board)[i]? = some crow)
    (hcell : crow[j]? = some classes) :
    ("thick-right" ∈ classes ↔
      ((j + 1) % solver.sub_grid_width = 0 ∧ j < board.length - 1)) ∧
    ("thick-bottom" ∈ classes ↔
      ((i + 1) % solver.sub_grid_height = 0 ∧ i < board.length - 1)) := by
  simp only [create_sudoku_html] at hrow
  rw [List.getElem?_map, List.getElem?_enum] at hrow
  cases hb : board[i]? with
  | none => rw [hb] at hrow; simp at hrow
  | some row =>
      rw [hb] at hrow
      simp only [Option.map_some', Option.some.injEq] at hrow
      subst hrow
      rw [List.getElem?_map, List.getElem?_enum] at hcell
      cases hc : row[j]? with
      | none => rw [hc] at hcell; simp at hcell
      | some cell =>
          rw [hc] at hcell
          simp only [Option.map_some', Option.some.injEq] at hcell
          subst hcell
          exact ⟨thick_right_mem_cell_classes _ _ _ _ _ _,
                 thick_bottom_mem_cell_classes _ _ _ _ _ _⟩

/-- Witness for C5: in a 4×4 board with 2×2 sub-grids, cell (1,1) carries
both thick borders, matching the boundary conditions. -/
theorem C5_witness :
    ("thick-right" ∈ ["thick-right", "thick-bottom", "empty"] ↔
      ((1 + 1) % slv4.sub_grid_width = 0 ∧ 1 < slv4.board.length - 1)) ∧
    ("thick-bottom" ∈ ["thick-right", "thick-bottom", "empty"] ↔
      ((1 + 1) % slv4.sub_grid_height = 0 ∧ 1 < slv4.board.length - 1)) :=
  C5_thick_borders slv4 slv4.board 1 1
    [["thick-bottom", "empty"], ["thick-right", "thick-bottom", "empty"],
     ["thick-bottom", "empty"], ["thick-bottom", "empty"]]
    ["thick-right", "thick-bottom", "empty"] (by decide) (by decide)
